import Mathlib

/-!
Shallow embedding of the ttools adversarial-training controller
(src/ttools/interfaces.py) and of the network builders
(src/modules/networks.py), together with theorems settling the
specification's claims about them.

Scalar model of the controller: the tensors that matter to the
controller's bookkeeping are scalar losses, modelled as rationals.  The
generator's parameters and the optimizers' internal state are opaque to
the controller and are not modelled; the discriminator's parameter vector
is kept as a list of rationals because the Wasserstein variant clamps it
element-wise.  The optimizer step on the discriminator parameters is an
abstract transformation supplied as a hook, mirroring how the source
delegates it to torch optimizers.
-/

/-- Log events emitted by GANInterface.__init__ (interfaces.py lines
50-60): the warning for gan_weight == 0, the warning for a missing
discriminator, and the info line for a present discriminator. -/
inductive LogEvent
  | warnGanWeightZero
  | warnNoDiscrim
  | infoUsingGanLoss
deriving DecidableEq

/-- State of a GANInterface object (interfaces.py lines 38-91) restricted
to the fields the claims are about: the optional discriminator (its
parameter vector), the optional discriminator optimizer (opaque), the
critic count ncritic, the gan_weight scalar, and the critic-iteration
counter iter. -/
structure GANState where
  discrim : Option (List ℚ)
  opt_d : Option Unit
  ncritic : ℕ
  gan_weight : ℚ
  iter : ℕ
deriving DecidableEq

/-- Per-step collaborator data consumed by GANInterface.backward: the
value returned by the _extra_generator_loss hook (None, or the list of
scalar loss values, lines 208-214), the discriminator's scalar scores on
the inputs selected by _discriminator_input for the fake and the real
sample, the loss-strategy methods _discriminator_gan_loss and
_generator_gan_loss as scalar functions, and the parameter transformation
the discriminator optimizer step performs inside _update_discriminator
(overridden by WGANInterface to also clamp). -/
structure Hooks where
  extra_generator_loss : Option (List ℚ)
  fake_score : ℚ
  real_score : ℚ
  discriminator_gan_loss : ℚ → ℚ → ℚ
  generator_gan_loss : ℚ → ℚ → ℚ
  opt_step_d : List ℚ → List ℚ

/-- The dictionary returned by GANInterface.backward (lines 236-237 and
267-268): keys loss_g, loss_d, loss and extra_losses. -/
structure BwdResult where
  loss_g : Option ℚ
  loss_d : Option ℚ
  loss : Option ℚ
  extra_losses : List ℚ
deriving DecidableEq

/-- Observable side effects of one backward call: which optimizer stepped,
and the scalar objective on which .backward() was invoked before that
step (total_loss in _update_discriminator line 276 and in
_update_generator lines 305-309, or extra_g_loss in the no-discriminator
path line 226). -/
structure StepEffects where
  stepped_g : Bool
  stepped_d : Bool
  backprop_g : Option ℚ
  backprop_d : Option ℚ
deriving DecidableEq

/-- Constructor GANInterface.__init__ (interfaces.py lines 38-91) for the
modelled fields: gan_weight == 0 discards the discriminator with a
warning (lines 50-53); a missing discriminator is warned about, a present
one is logged (lines 55-60); iter starts at 0 (line 63); opt_d is built
exactly when the discriminator is present (lines 88-91).  Optimizer-name
validation and device placement concern fields outside this model. -/
def GANInterface.init (discrim : Option (List ℚ)) (ncritic : ℕ)
    (gan_weight : ℚ) : GANState × List LogEvent :=
  let logs1 := if gan_weight = 0 then [LogEvent.warnGanWeightZero] else []
  let discrim1 := if gan_weight = 0 then none else discrim
  let logs2 := logs1 ++ (match discrim1 with
    | none => [LogEvent.warnNoDiscrim]
    | some _ => [LogEvent.infoUsingGanLoss])
  ({ discrim := discrim1,
     opt_d := match discrim1 with | none => none | some _ => some (),
     ncritic := ncritic,
     gan_weight := gan_weight,
     iter := 0 }, logs2)

/-- Error message of interfaces.py lines 221-222. -/
def noOptimizeMsg : String :=
  "Training a GAN with no discriminator and no extra loss: nothing to optimize!"

/-- Error message for the hook returning an empty loss list: Python's
sum of an empty list is the int 0, which is not None, so the source then
crashes with an AttributeError at extra_g_loss.backward() (line 226) or
at extra_g_loss.item() (lines 236, 265).  Modelled as a failing step. -/
def emptyExtraMsg : String :=
  "AttributeError: the sum of an empty loss list is the int 0"

/-- GANInterface.backward (interfaces.py lines 200-268).  Computes the
extra generator losses; with no discriminator it requires them and steps
only the generator (lines 217-237); with a discriminator it updates the
discriminator while iter < ncritic (lines 243-252, delegating to
_update_discriminator, lines 270-290) and otherwise resets iter and
updates the generator (lines 253-262, delegating to _update_generator,
lines 292-322).  Reported loss_d / loss_g are the raw strategy values
(lines 290, 322); the backpropagated objectives are the gan_weight-scaled
ones (lines 276, 305-309).  The loss key carries extra_g_loss.item() or
None (lines 264-267). -/
def GANInterface.backward (h : Hooks) (s : GANState) :
    Except String (BwdResult × GANState × StepEffects) :=
  match s.discrim with
  | none =>
    match h.extra_generator_loss with
    | none => Except.error noOptimizeMsg
    | some [] => Except.error emptyExtraMsg
    | some ls =>
      Except.ok
        ({ loss_g := none, loss_d := none, loss := some ls.sum,
           extra_losses := ls },
         s,
         { stepped_g := true, stepped_d := false,
           backprop_g := some ls.sum, backprop_d := none })
  | some dp =>
    if h.extra_generator_loss = some ([] : List ℚ) then
      Except.error emptyExtraMsg
    else if s.iter < s.ncritic then
      let loss_d := h.discriminator_gan_loss h.fake_score h.real_score
      Except.ok
        ({ loss_g := none, loss_d := some loss_d,
           loss := h.extra_generator_loss.map List.sum,
           extra_losses := h.extra_generator_loss.getD [] },
         { s with discrim := some (h.opt_step_d dp), iter := s.iter + 1 },
         { stepped_g := false, stepped_d := true,
           backprop_g := none,
           backprop_d := some (loss_d * s.gan_weight) })
    else
      let loss_g := h.generator_gan_loss h.fake_score h.real_score
      let total := match h.extra_generator_loss with
        | none => loss_g * s.gan_weight
        | some ls => loss_g * s.gan_weight + ls.sum
      Except.ok
        ({ loss_g := some loss_g, loss_d := none,
           loss := h.extra_generator_loss.map List.sum,
           extra_losses := h.extra_generator_loss.getD [] },
         { s with iter := 0 },
         { stepped_g := true, stepped_d := false,
           backprop_g := some total, backprop_d := none })

/-- GANInterface.training_step (interfaces.py lines 93-104): runs the
forward hook, then backward, and merges the two result dictionaries.  The
forward hook and the dictionary merge involve only external collaborator
data; the loss bookkeeping the claims are about is backward's, so the
scalar model identifies the two. -/
def GANInterface.training_step (h : Hooks) (s : GANState) :
    Except String (BwdResult × GANState × StepEffects) :=
  GANInterface.backward h s

/-- A sequence of consecutive training_step calls, collecting the backward
results; the per-step collaborator data is given as a stream. -/
def runSteps (hs : ℕ → Hooks) : ℕ → GANState →
    Except String (List BwdResult × GANState)
  | 0, s => Except.ok ([], s)
  | n + 1, s =>
    match GANInterface.training_step (hs 0) s with
    | Except.error e => Except.error e
    | Except.ok (r, s', _) =>
      match runSteps (fun k => hs (k + 1)) n s' with
      | Except.error e => Except.error e
      | Except.ok (rs, sf) => Except.ok (r :: rs, sf)

/-- Element-wise clamp, torch Tensor.clamp_(min, max):
min(max(x, lo), hi). -/
def clamp_ (x lo hi : ℚ) : ℚ := min (max x lo) hi

/-- WGANInterface._update_discriminator (interfaces.py lines 443-451):
the base-class discriminator update (the optimizer step, here the
abstract base transformation), followed by clamping every discriminator
parameter into the interval from -c to c. -/
def WGANInterface.opt_step_d (c : ℚ) (base : List ℚ → List ℚ)
    (ps : List ℚ) : List ℚ :=
  (base ps).map (fun p => clamp_ p (-c) c)

/-- Error message of the assertion in interfaces.py line 435. -/
def clipMsg : String := "clipping param should be positive."

/-- WGANInterface.__init__ (interfaces.py lines 433-436): runs the base
constructor, then asserts c > 0 (a fatal configuration error when
violated). -/
def WGANInterface.init (discrim : Option (List ℚ)) (ncritic : ℕ)
    (gan_weight : ℚ) (c : ℚ) :
    Except String ((GANState × List LogEvent) × ℚ) :=
  let base := GANInterface.init discrim ncritic gan_weight
  if 0 < c then Except.ok (base, c) else Except.error clipMsg

/-!
Gradient-flow model for the discriminator update.  A differentiable
scalar is a value together with the finite set of parameter indices the
autograd graph tracks it as depending on; torch.no_grad() produces a
value with an empty dependency set.
-/

/-- A scalar tensor in the autograd model: its value and the set of
parameter indices gradients can flow to from it. -/
structure GTensor where
  val : ℚ
  deps : Finset ℕ

/-- Applying the discriminator module to an input: the output value is
some function of the input value, and the output depends on the
discriminator's own parameters together with everything the input
depends on. -/
def applyDiscrim (dparams : Finset ℕ) (f : ℚ → ℚ) (x : GTensor) : GTensor :=
  { val := f x.val, deps := dparams ∪ x.deps }

/-- GANInterface._eval_d (interfaces.py lines 174-198) for a single
input: with backprop the discriminator is applied normally; without it
the application runs under torch.no_grad(), so the result carries no
dependencies at all. -/
def GANInterface.eval_d (dparams : Finset ℕ) (f : ℚ → ℚ)
    (d_input : GTensor) (backprop : Bool) : GTensor :=
  if backprop then applyDiscrim dparams f d_input
  else { val := (applyDiscrim dparams f d_input).val, deps := ∅ }

/-- A loss strategy combining the two prediction scalars: any of the
_discriminator_gan_loss formulas; the result depends on whatever either
input depends on. -/
def combineLoss (op : ℚ → ℚ → ℚ) (fake_pred real_pred : GTensor) :
    GTensor :=
  { val := op fake_pred.val real_pred.val,
    deps := fake_pred.deps ∪ real_pred.deps }

/-- Scaling a loss by the scalar gan_weight (interfaces.py line 276)
leaves its dependency set unchanged. -/
def scaleLoss (gw : ℚ) (t : GTensor) : GTensor :=
  { val := t.val * gw, deps := t.deps }

/-- The discriminator-update loss graph (interfaces.py lines 243-250 and
270-276): fake_pred is evaluated with backprop=False, real_pred with
backprop=True, the strategy loss combines them and is scaled by
gan_weight; its dependency set is what loss.backward() would populate
gradients for. -/
def discriminatorStepLoss (dparams : Finset ℕ) (f : ℚ → ℚ)
    (op : ℚ → ℚ → ℚ) (gw : ℚ) (fake_in real_in : GTensor) : GTensor :=
  let fake_pred := GANInterface.eval_d dparams f fake_in false
  let real_pred := GANInterface.eval_d dparams f real_in true
  scaleLoss gw (combineLoss op fake_pred real_pred)

/-!
Model of the network builders in src/modules/networks.py: the
construction-time validation of FCModule / ConvModule and the
channel-count bookkeeping of the UNet assembler.
-/

/-- Activation modules that _get_activation can return. -/
inductive ActivationKind
  | relu
  | leaky_relu
deriving DecidableEq

/-- Error message of the assertion in networks.py line 359. -/
def activationMsg : String :=
  "activation should be one of [relu, leaky_relu, lrelu]"

/-- _get_activation (networks.py lines 357-364): asserts the name is in
the valid list, then returns ReLU for relu and LeakyReLU for both
leaky_relu and its alias lrelu. -/
def _get_activation (activation : String) : Except String ActivationKind :=
  if activation ∈ ["relu", "leaky_relu", "lrelu"] then
    (if activation = "relu" then Except.ok ActivationKind.relu
     else Except.ok ActivationKind.leaky_relu)
  else Except.error activationMsg

/-- Error message of the assertion in networks.py line 346. -/
def normLayerMsg : String :=
  "norm_layer should be one of [instance, batch]"

/-- _get_norm_layer (networks.py lines 344-354): asserts the name is
instance or batch; the constructed layer itself is outside the scalar
model. -/
def _get_norm_layer (norm_layer : String) : Except String Unit :=
  if norm_layer ∈ ["instance", "batch"] then Except.ok ()
  else Except.error normLayerMsg

/-- Nonlinearity names accepted by the external collaborator
torch.nn.init.calculate_gain, per its documentation: linear, the conv
variants, sigmoid, tanh, relu, leaky_relu and selu.  The alias lrelu is
not among them. -/
def calculate_gain_supported : List String :=
  ["linear", "conv1d", "conv2d", "conv3d", "conv_transpose1d",
   "conv_transpose2d", "conv_transpose3d", "sigmoid", "tanh", "relu",
   "leaky_relu", "selu"]

/-- Models the external collaborator torch.nn.init.calculate_gain, which
raises ValueError for an unsupported nonlinearity name; the numeric gain
value is irrelevant to the claims and not modelled. -/
def calculate_gain (nonlinearity : String) : Except String Unit :=
  if nonlinearity ∈ calculate_gain_supported then Except.ok ()
  else Except.error ("Unsupported nonlinearity " ++ nonlinearity)

/-- _init_fc_or_conv (networks.py lines 367-373): with an activation
name, the gain is computed by calculate_gain (which can reject the
name); with none, the gain is 1 and nothing can fail.  The random fill
itself is outside the scalar model. -/
def _init_fc_or_conv (activation : Option String) : Except String Unit :=
  match activation with
  | none => Except.ok ()
  | some a => calculate_gain a

/-- FCModule.__init__ (networks.py lines 20-37): asserts positive channel
counts, builds the Linear layer, resolves the activation via
_get_activation when given, attaches dropout when given (torch's
nn.Dropout rejects probabilities outside the unit interval), and finally
initializes parameters via _init_fc_or_conv with the activation name. -/
def FCModule.init (n_in n_out : ℤ) (activation : Option String)
    (dropout : Option ℚ) : Except String Unit :=
  if 0 < n_in then
    if 0 < n_out then
      match (match activation with
             | none => Except.ok ActivationKind.relu
             | some a => _get_activation a : Except String ActivationKind) with
      | Except.error e => Except.error e
      | Except.ok _ =>
        match dropout with
        | some p =>
          if 0 ≤ p ∧ p ≤ 1 then _init_fc_or_conv activation
          else Except.error "dropout probability has to be between 0 and 1"
        | none => _init_fc_or_conv activation
    else Except.error "Output channels should be a positive integer"
  else Except.error "Input channels should be a positive integer"

/-- ConvModule.__init__ (networks.py lines 115-139): asserts positive
channel counts and kernel size, builds the convolution (padding
(ksize - 1) / 2 when pad is requested, bias exactly when no
normalization follows), resolves the optional normalization and
activation by name, and initializes parameters via _init_fc_or_conv
with the activation name. -/
def ConvModule.init (n_in n_out ksize : ℤ) (pad : Bool)
    (activation : Option String) (norm_layer : Option String) :
    Except String Unit :=
  if 0 < n_in then
    if 0 < n_out then
      if 0 < ksize then
        match (match norm_layer with
               | none => Except.ok ()
               | some nl => _get_norm_layer nl : Except String Unit) with
        | Except.error e => Except.error e
        | Except.ok _ =>
          match (match activation with
                 | none => Except.ok ActivationKind.relu
                 | some a => _get_activation a :
                   Except String ActivationKind) with
          | Except.error e => Except.error e
          | Except.ok _ => _init_fc_or_conv activation
      else Except.error "Kernel size should be a positive integer"
    else Except.error "Output channels should be a positive integer"
  else Except.error "Input channels should be a positive integer"

/-- Construction parameters of UNet.__init__ (networks.py lines
231-259) that determine the per-level channel counts. -/
structure UNetParams where
  n_in : ℕ
  n_out : ℕ
  base_width : ℕ
  max_width : ℕ
  increase_factor : ℕ
  num_convs : ℕ
  num_levels : ℕ
deriving DecidableEq

/-- UNet._width (networks.py lines 228-229):
min(base_width * increase_factor ^ lvl, max_width). -/
def UNetParams.width (P : UNetParams) (lvl : ℕ) : ℕ :=
  min (P.base_width * P.increase_factor ^ lvl) P.max_width

/-- Channel counts the UNet.__init__ loop body (networks.py lines
242-252) computes for one level: the level's width, its in/out channel
counts and the child-output channel count passed to _UNetLevel.  The
loop's only cross-iteration state is the child module link; these
numbers depend on lvl alone. -/
structure UNetLevelChans where
  lvl_in : ℕ
  lvl_out : ℕ
  width : ℕ
  n_child_out : ℕ
deriving DecidableEq

/-- Body of the UNet.__init__ loop (networks.py lines 242-252): lvl_w and
n_child_out start as _width(lvl); level 0 uses the global n_in / n_out,
every other level uses _width(lvl-1) for both, and the deepest level
(lvl = num_levels - 1) zeroes n_child_out only in that non-outermost
branch. -/
def UNetParams.levelChans (P : UNetParams) (lvl : ℕ) : UNetLevelChans :=
  let lvl_w := P.width lvl
  if lvl = 0 then
    { lvl_in := P.n_in, lvl_out := P.n_out, width := lvl_w,
      n_child_out := P.width lvl }
  else
    { lvl_in := P.width (lvl - 1), lvl_out := P.width (lvl - 1),
      width := lvl_w,
      n_child_out := if lvl = P.num_levels - 1 then 0 else P.width lvl }

/-- Channel bookkeeping of one _UNetLevel (networks.py lines 264-274):
the left (down) chain maps n_in to num_convs layers of the level width
(an int width broadcast by ConvChain to the list [width] * depth); the
right (up) chain takes width + n_child_out input channels and the
explicit width list [width] * (num_convs - 1) + [n_out]. -/
structure UNetLevelChains where
  left_in : ℕ
  left_widths : List ℕ
  right_in : ℕ
  right_widths : List ℕ
deriving DecidableEq

/-- _UNetLevel.__init__ channel computation (networks.py lines 264-274). -/
def mkUNetLevel (n_in n_out width num_convs n_child_out : ℕ) :
    UNetLevelChains :=
  { left_in := n_in,
    left_widths := List.replicate num_convs width,
    right_in := width + n_child_out,
    right_widths := List.replicate (num_convs - 1) width ++ [n_out] }

/-- The chains of the level the UNet.__init__ loop builds at a given
lvl. -/
def UNetParams.level (P : UNetParams) (lvl : ℕ) : UNetLevelChains :=
  let c := P.levelChans lvl
  mkUNetLevel c.lvl_in c.lvl_out c.width P.num_convs c.n_child_out

/-!
Branch lemmas for GANInterface.backward, shared by the claim theorems.
-/

theorem backward_none_none (h : Hooks) (s : GANState)
    (hd : s.discrim = none) (hx : h.extra_generator_loss = none) :
    GANInterface.backward h s = Except.error noOptimizeMsg := by
  unfold GANInterface.backward
  rw [hd, hx]

theorem backward_none_empty (h : Hooks) (s : GANState)
    (hd : s.discrim = none) (hx : h.extra_generator_loss = some []) :
    GANInterface.backward h s = Except.error emptyExtraMsg := by
  unfold GANInterface.backward
  rw [hd, hx]

theorem backward_none_ok (h : Hooks) (s : GANState) (x : ℚ) (xs : List ℚ)
    (hd : s.discrim = none) (hx : h.extra_generator_loss = some (x :: xs)) :
    GANInterface.backward h s = Except.ok
      ({ loss_g := none, loss_d := none, loss := some (x :: xs).sum,
         extra_losses := x :: xs },
       s,
       { stepped_g := true, stepped_d := false,
         backprop_g := some (x :: xs).sum, backprop_d := none }) := by
  unfold GANInterface.backward
  rw [hd, hx]

theorem backward_some_empty (h : Hooks) (s : GANState) (dp : List ℚ)
    (hd : s.discrim = some dp) (hx : h.extra_generator_loss = some []) :
    GANInterface.backward h s = Except.error emptyExtraMsg := by
  unfold GANInterface.backward
  rw [hd]
  simp [hx]

theorem backward_d_branch (h : Hooks) (s : GANState) (dp : List ℚ)
    (hd : s.discrim = some dp) (hx : h.extra_generator_loss ≠ some [])
    (hlt : s.iter < s.ncritic) :
    GANInterface.backward h s = Except.ok
      ({ loss_g := none,
         loss_d := some (h.discriminator_gan_loss h.fake_score h.real_score),
         loss := h.extra_generator_loss.map List.sum,
         extra_losses := h.extra_generator_loss.getD [] },
       { s with discrim := some (h.opt_step_d dp), iter := s.iter + 1 },
       { stepped_g := false, stepped_d := true,
         backprop_g := none,
         backprop_d :=
           some (h.discriminator_gan_loss h.fake_score h.real_score *
                 s.gan_weight) }) := by
  unfold GANInterface.backward
  rw [hd]
  simp [hx, hlt]

theorem backward_g_branch (h : Hooks) (s : GANState) (dp : List ℚ)
    (hd : s.discrim = some dp) (hx : h.extra_generator_loss ≠ some [])
    (hge : ¬ s.iter < s.ncritic) :
    GANInterface.backward h s = Except.ok
      ({ loss_g := some (h.generator_gan_loss h.fake_score h.real_score),
         loss_d := none,
         loss := h.extra_generator_loss.map List.sum,
         extra_losses := h.extra_generator_loss.getD [] },
       { s with iter := 0 },
       { stepped_g := true, stepped_d := false,
         backprop_g := some
           (match h.extra_generator_loss with
            | none => h.generator_gan_loss h.fake_score h.real_score *
                s.gan_weight
            | some ls => h.generator_gan_loss h.fake_score h.real_score *
                s.gan_weight + ls.sum),
         backprop_d := none }) := by
  unfold GANInterface.backward
  rw [hd]
  simp [hx, hge]

/-- Unfolding equation for one step of runSteps. -/
theorem runSteps_succ (hs : ℕ → Hooks) (n : ℕ) (s : GANState) :
    runSteps hs (n + 1) s =
      match GANInterface.training_step (hs 0) s with
      | Except.error e => Except.error e
      | Except.ok (r, s', _) =>
        match runSteps (fun k => hs (k + 1)) n s' with
        | Except.error e => Except.error e
        | Except.ok (rs, sf) => Except.ok (r :: rs, sf) := by
  rw [runSteps]

/-- With a discriminator present and iter + k = ncritic, the next k + 1
steps are k discriminator updates followed by one generator update, after
which iter is 0 again. -/
theorem runSteps_phase (k : ℕ) (hs : ℕ → Hooks)
    (hwf : ∀ j, (hs j).extra_generator_loss ≠ some []) (s : GANState)
    (hd : s.discrim.isSome) (hiter : s.iter + k = s.ncritic) :
    ∃ rsD rG sf,
      runSteps hs (k + 1) s = Except.ok (rsD ++ [rG], sf) ∧
      rsD.length = k ∧
      (∀ r ∈ rsD, r.loss_d.isSome ∧ r.loss_g = none) ∧
      rG.loss_g.isSome ∧ rG.loss_d = none ∧ sf.iter = 0 := by
  induction k generalizing hs s with
  | zero =>
    obtain ⟨dp, hdp⟩ := Option.isSome_iff_exists.mp hd
    have hge : ¬ s.iter < s.ncritic := by omega
    have hb := backward_g_branch (hs 0) s dp hdp (hwf 0) hge
    refine ⟨[],
      { loss_g := some ((hs 0).generator_gan_loss (hs 0).fake_score
          (hs 0).real_score),
        loss_d := none,
        loss := (hs 0).extra_generator_loss.map List.sum,
        extra_losses := (hs 0).extra_generator_loss.getD [] },
      { s with iter := 0 }, ?_, rfl, by simp, rfl, rfl, rfl⟩
    simp [runSteps, GANInterface.training_step, hb]
  | succ k ih =>
    obtain ⟨dp, hdp⟩ := Option.isSome_iff_exists.mp hd
    have hlt : s.iter < s.ncritic := by omega
    have hb := backward_d_branch (hs 0) s dp hdp (hwf 0) hlt
    have hi1 : ({ s with discrim := some ((hs 0).opt_step_d dp), iter := s.iter + 1 } : GANState).iter + k = ({ s with discrim := some ((hs 0).opt_step_d dp), iter := s.iter + 1 } : GANState).ncritic := by
      show s.iter + 1 + k = s.ncritic
      omega
    obtain ⟨rsD, rG, sf, hrun, hlen, hD, hG1, hG2, hsf⟩ :=
      ih (fun j => hs (j + 1)) (fun j => hwf (j + 1))
        { s with
          discrim := some ((hs 0).opt_step_d dp),
          iter := s.iter + 1 } rfl hi1
    refine ⟨
      { loss_g := none,
        loss_d := some ((hs 0).discriminator_gan_loss (hs 0).fake_score
          (hs 0).real_score),
        loss := (hs 0).extra_generator_loss.map List.sum,
        extra_losses := (hs 0).extra_generator_loss.getD [] } :: rsD,
      rG, sf, ?_, by simp [hlen], ?_, hG1, hG2, hsf⟩
    · rw [runSteps_succ]
      simp only [GANInterface.training_step]
      rw [hb]
      simp only [hrun, List.cons_append]
    · intro r hr
      rcases List.mem_cons.mp hr with h1 | h2
      · subst h1
        exact ⟨rfl, rfl⟩
      · exact hD r h2

/-- C1: for a controller with a discriminator present, ncritic = N with
N at least 1, and iter starting at 0, a run of N + 1 consecutive
training_step calls produces exactly N results with a non-null loss_d
(and null loss_g) followed by exactly one result with a non-null loss_g
(and null loss_d), and iter is 0 again after the generator-update step. -/
theorem claim_C1_critic_schedule (N : ℕ) (hN : 1 ≤ N) (hs : ℕ → Hooks)
    (hwf : ∀ j, (hs j).extra_generator_loss ≠ some []) (s : GANState)
    (hd : s.discrim.isSome) (hi : s.iter = 0) (hn : s.ncritic = N) :
    ∃ rsD rG sf,
      runSteps hs (N + 1) s = Except.ok (rsD ++ [rG], sf) ∧
      rsD.length = N ∧
      (∀ r ∈ rsD, r.loss_d.isSome ∧ r.loss_g = none) ∧
      rG.loss_g.isSome ∧ rG.loss_d = none ∧ sf.iter = 0 :=
  runSteps_phase N hs hwf s hd (by omega)

/-- Concrete collaborator data for the witnesses: one extra loss of value
1, scores 0 and 1, difference-style losses, identity optimizer step. -/
def hooks0 : Hooks :=
  { extra_generator_loss := some [1],
    fake_score := 0,
    real_score := 1,
    discriminator_gan_loss := fun f r => r - f,
    generator_gan_loss := fun f _ => -f,
    opt_step_d := id }

/-- Concrete controller state for the witnesses: a discriminator with one
parameter, ncritic 1, gan_weight 1, iter 0. -/
def state0 : GANState :=
  { discrim := some [5], opt_d := some (), ncritic := 1, gan_weight := 1,
    iter := 0 }

/-- Witness for C1 at N = 1 on a concrete controller. -/
theorem claim_C1_critic_schedule_witness :
    1 ≤ 1 ∧
    (∃ rsD rG sf,
      runSteps (fun _ => hooks0) (1 + 1) state0 =
        Except.ok (rsD ++ [rG], sf) ∧
      rsD.length = 1 ∧
      (∀ r ∈ rsD, r.loss_d.isSome ∧ r.loss_g = none) ∧
      rG.loss_g.isSome ∧ rG.loss_d = none ∧ sf.iter = 0) :=
  ⟨le_refl 1,
   claim_C1_critic_schedule 1 (le_refl 1) (fun _ => hooks0)
     (fun _ => by show hooks0.extra_generator_loss ≠ some []; decide)
     state0 (by decide) rfl rfl⟩

/-- C4: with ncritic at least 1, the invariant iter ≤ ncritic (and 0 ≤
iter, by the type) holds after construction and is preserved by every
successful training_step: with a discriminator, iter is incremented
exactly when iter < ncritic and reset to 0 when iter = ncritic; without
one, iter is untouched. -/
theorem claim_C4_iter_invariant (d : Option (List ℚ)) (nc : ℕ) (gw : ℚ)
    (hnc : 1 ≤ nc) :
    (GANInterface.init d nc gw).1.iter = 0 ∧
    (GANInterface.init d nc gw).1.iter ≤
      (GANInterface.init d nc gw).1.ncritic ∧
    (∀ h s r s' eff,
      GANInterface.training_step h s = Except.ok (r, s', eff) →
      s.iter ≤ s.ncritic →
      (s'.ncritic = s.ncritic ∧ s'.iter ≤ s'.ncritic ∧
       (s.discrim = none → s'.iter = s.iter) ∧
       (s.discrim.isSome → s.iter < s.ncritic → s'.iter = s.iter + 1) ∧
       (s.discrim.isSome → s.iter = s.ncritic → s'.iter = 0))) := by
  refine ⟨rfl, by simp [GANInterface.init], ?_⟩
  intro h s r s' eff hok hinv
  cases hdis : s.discrim with
  | none =>
    cases hex : h.extra_generator_loss with
    | none =>
      rw [GANInterface.training_step, backward_none_none h s hdis hex] at hok
      cases hok
    | some ls =>
      cases ls with
      | nil =>
        rw [GANInterface.training_step,
          backward_none_empty h s hdis hex] at hok
        cases hok
      | cons x xs =>
        rw [GANInterface.training_step,
          backward_none_ok h s x xs hdis hex] at hok
        simp only [Except.ok.injEq, Prod.mk.injEq] at hok
        obtain ⟨hr, hs', heff⟩ := hok
        subst hs'
        refine ⟨rfl, hinv, fun _ => rfl, ?_, ?_⟩
        · intro hsome _
          simp at hsome
        · intro hsome _
          simp at hsome
  | some dp =>
    by_cases hx : h.extra_generator_loss = some []
    · rw [GANInterface.training_step,
        backward_some_empty h s dp hdis hx] at hok
      cases hok
    · by_cases hlt : s.iter < s.ncritic
      · rw [GANInterface.training_step,
          backward_d_branch h s dp hdis hx hlt] at hok
        simp only [Except.ok.injEq, Prod.mk.injEq] at hok
        obtain ⟨hr, hs', heff⟩ := hok
        subst hs'
        refine ⟨rfl, ?_, ?_, fun _ _ => rfl, ?_⟩
        · show s.iter + 1 ≤ s.ncritic
          omega
        · intro hno
          cases hno
        · intro _ heq
          exact absurd heq (Nat.ne_of_lt hlt)
      · rw [GANInterface.training_step,
          backward_g_branch h s dp hdis hx hlt] at hok
        simp only [Except.ok.injEq, Prod.mk.injEq] at hok
        obtain ⟨hr, hs', heff⟩ := hok
        subst hs'
        refine ⟨rfl, Nat.zero_le _, ?_, ?_, fun _ _ => rfl⟩
        · intro hno
          cases hno
        · intro _ hlt'
          exact absurd hlt' hlt

/-- Witness for C4 at a concrete construction. -/
theorem claim_C4_iter_invariant_witness :
    1 ≤ 1 ∧ (GANInterface.init (some [1]) 1 1).1.iter = 0 :=
  ⟨le_refl 1, (claim_C4_iter_invariant (some [1]) 1 1 (le_refl 1)).1⟩

/-- C5: after construction, the discriminator and its optimizer are both
present or both absent, and gan_weight = 0 forces the discriminator to
none (with a warning) regardless of the discriminator argument. -/
theorem claim_C5_discrim_opt_pairing (d : Option (List ℚ)) (nc : ℕ)
    (gw : ℚ) :
    ((GANInterface.init d nc gw).1.opt_d.isSome ↔
      (GANInterface.init d nc gw).1.discrim.isSome) ∧
    (gw = 0 → (GANInterface.init d nc gw).1.discrim = none ∧
      LogEvent.warnGanWeightZero ∈ (GANInterface.init d nc gw).2) := by
  constructor
  · by_cases h0 : gw = 0
    · simp [GANInterface.init, h0]
    · cases d <;> simp [GANInterface.init, h0]
  · intro h0
    simp [GANInterface.init, h0]

/-- Witness for C5: a supplied discriminator is discarded when
gan_weight is 0, with the warning emitted. -/
theorem claim_C5_discrim_opt_pairing_witness :
    (GANInterface.init (some [1]) 1 0).1.discrim = none ∧
    LogEvent.warnGanWeightZero ∈ (GANInterface.init (some [1]) 1 0).2 :=
  (claim_C5_discrim_opt_pairing (some [1]) 1 0).2 rfl

/-- C6: with the discriminator absent, a training step whose extra-loss
hook returns none fails with the fatal nothing-to-optimize error; when
the hook returns an actual (nonempty) list of losses, every training
step succeeds, steps only the generator optimizer, leaves the state
unchanged, and reports loss_g and loss_d null, loss the extra-loss sum,
and the list of individual extra-loss values. -/
theorem claim_C6_no_discriminator (h : Hooks) (s : GANState)
    (hd : s.discrim = none) :
    (h.extra_generator_loss = none →
      GANInterface.training_step h s = Except.error noOptimizeMsg) ∧
    (∀ x xs, h.extra_generator_loss = some (x :: xs) →
      GANInterface.training_step h s = Except.ok
        ({ loss_g := none, loss_d := none, loss := some (x :: xs).sum,
           extra_losses := x :: xs },
         s,
         { stepped_g := true, stepped_d := false,
           backprop_g := some (x :: xs).sum, backprop_d := none })) :=
  ⟨fun hx => backward_none_none h s hd hx,
   fun x xs hx => backward_none_ok h s x xs hd hx⟩

/-- Concrete collaborator data with no extra loss, for witnesses. -/
def hooksNoExtra : Hooks :=
  { extra_generator_loss := none,
    fake_score := 0,
    real_score := 0,
    discriminator_gan_loss := fun f r => r - f,
    generator_gan_loss := fun f _ => -f,
    opt_step_d := id }

/-- Concrete no-discriminator controller state, for witnesses. -/
def stateNoDiscrim : GANState :=
  { discrim := none, opt_d := none, ncritic := 1, gan_weight := 0,
    iter := 0 }

/-- Witness for C6: both the fatal path and the extra-loss path at
concrete inputs. -/
theorem claim_C6_no_discriminator_witness :
    GANInterface.training_step hooksNoExtra stateNoDiscrim =
      Except.error noOptimizeMsg ∧
    GANInterface.training_step hooks0 stateNoDiscrim = Except.ok
      ({ loss_g := none, loss_d := none, loss := some ([(1 : ℚ)]).sum,
         extra_losses := [(1 : ℚ)] },
       stateNoDiscrim,
       { stepped_g := true, stepped_d := false,
         backprop_g := some ([(1 : ℚ)]).sum, backprop_d := none }) :=
  ⟨(claim_C6_no_discriminator hooksNoExtra stateNoDiscrim rfl).1 rfl,
   (claim_C6_no_discriminator hooks0 stateNoDiscrim rfl).2 1 [] rfl⟩

/-- Collaborator data for the C3 counterexample: generator GAN loss 1
and one extra loss of value 1. -/
def hooksC3 : Hooks :=
  { extra_generator_loss := some [1],
    fake_score := 0,
    real_score := 0,
    discriminator_gan_loss := fun _ _ => 0,
    generator_gan_loss := fun _ _ => 1,
    opt_step_d := id }

/-- Controller state for the C3 counterexample: discriminator present,
gan_weight 1, iter = ncritic = 1, so the next call performs the
generator update. -/
def stateC3 : GANState :=
  { discrim := some [0], opt_d := some (), ncritic := 1, gan_weight := 1,
    iter := 1 }

/-- Result record backward produces on the C3 counterexample input. -/
def resultC3 : BwdResult :=
  { loss_g := some 1, loss_d := none, loss := some 1, extra_losses := [1] }

/-- Post-step state on the C3 counterexample input. -/
def stateC3' : GANState :=
  { discrim := some [0], opt_d := some (), ncritic := 1, gan_weight := 1,
    iter := 0 }

/-- Step effects on the C3 counterexample input. -/
def effC3 : StepEffects :=
  { stepped_g := true, stepped_d := false, backprop_g := some 2,
    backprop_d := none }

/-- C3 counterexample: on a generator-update step with a discriminator
present, the reported combined loss field is the extra-loss value (here
1), not the generator-side combined value gan_weight * loss_g + extra
(here 2) that the claim asserts; that combined value appears only as the
backpropagated objective. -/
theorem claim_C3_counterexample :
    GANInterface.training_step hooksC3 stateC3 =
      Except.ok (resultC3, stateC3', effC3) ∧
    resultC3.loss_g = some 1 ∧
    effC3.backprop_g = some ((1 : ℚ) * stateC3.gan_weight + 1) ∧
    resultC3.loss = some 1 ∧
    ¬ resultC3.loss = some ((1 : ℚ) * stateC3.gan_weight + 1) := by
  have hb := backward_g_branch hooksC3 stateC3 [0] rfl (by decide) (by decide)
  refine ⟨?_, rfl, ?_, rfl, ?_⟩
  · rw [GANInterface.training_step, hb]
    norm_num [hooksC3, stateC3, resultC3, stateC3', effC3]
  · norm_num [effC3, stateC3]
  · norm_num [resultC3, stateC3]

/-- C3 amended: the combined loss field always carries the extra-loss
sum when the hook produced extra losses and null otherwise -- in the
no-discriminator path (where the extra loss is mandatory, so it is
always populated there) and in every discriminator-present step,
including generator-update steps; it never carries the
gan_weight-scaled generator-side combined objective. -/
theorem claim_C3_loss_field (h : Hooks) (s : GANState) (r : BwdResult)
    (s' : GANState) (eff : StepEffects)
    (hok : GANInterface.training_step h s = Except.ok (r, s', eff)) :
    r.loss = h.extra_generator_loss.map List.sum ∧
    (s.discrim = none → h.extra_generator_loss.isSome) := by
  cases hdis : s.discrim with
  | none =>
    cases hex : h.extra_generator_loss with
    | none =>
      rw [GANInterface.training_step, backward_none_none h s hdis hex] at hok
      cases hok
    | some ls =>
      cases ls with
      | nil =>
        rw [GANInterface.training_step,
          backward_none_empty h s hdis hex] at hok
        cases hok
      | cons x xs =>
        rw [GANInterface.training_step,
          backward_none_ok h s x xs hdis hex] at hok
        simp only [Except.ok.injEq, Prod.mk.injEq] at hok
        obtain ⟨hr, _, _⟩ := hok
        subst hr
        exact ⟨by simp [hex], fun _ => by simp [hex]⟩
  | some dp =>
    by_cases hx : h.extra_generator_loss = some []
    · rw [GANInterface.training_step,
        backward_some_empty h s dp hdis hx] at hok
      cases hok
    · by_cases hlt : s.iter < s.ncritic
      · rw [GANInterface.training_step,
          backward_d_branch h s dp hdis hx hlt] at hok
        simp only [Except.ok.injEq, Prod.mk.injEq] at hok
        obtain ⟨hr, _, _⟩ := hok
        subst hr
        refine ⟨rfl, ?_⟩
        intro hno
        cases hno
      · rw [GANInterface.training_step,
          backward_g_branch h s dp hdis hx hlt] at hok
        simp only [Except.ok.injEq, Prod.mk.injEq] at hok
        obtain ⟨hr, _, _⟩ := hok
        subst hr
        refine ⟨rfl, ?_⟩
        intro hno
        cases hno

/-- Witness for the amended C3 on the concrete counterexample input. -/
theorem claim_C3_loss_field_witness :
    resultC3.loss = hooksC3.extra_generator_loss.map List.sum ∧
    (stateC3.discrim = none → hooksC3.extra_generator_loss.isSome) :=
  claim_C3_loss_field hooksC3 stateC3 resultC3 stateC3' effC3
    (by rw [GANInterface.training_step,
          backward_g_branch hooksC3 stateC3 [0] rfl (by decide) (by decide)]
        norm_num [hooksC3, stateC3, resultC3, stateC3', effC3])

/-- C9: with a discriminator present, the reported loss_d and loss_g
scalars are the raw loss-strategy values, before multiplication by
gan_weight and (for loss_g) excluding the extra generator loss, while
the backpropagated objective is the gan_weight-scaled value (plus the
extra generator loss for the generator update). -/
theorem claim_C9_raw_loss_reporting (h : Hooks) (s : GANState)
    (dp : List ℚ) (r : BwdResult) (s' : GANState) (eff : StepEffects)
    (hd : s.discrim = some dp)
    (hok : GANInterface.training_step h s = Except.ok (r, s', eff)) :
    (s.iter < s.ncritic →
      r.loss_d =
        some (h.discriminator_gan_loss h.fake_score h.real_score) ∧
      eff.backprop_d =
        some (h.discriminator_gan_loss h.fake_score h.real_score *
          s.gan_weight)) ∧
    (¬ s.iter < s.ncritic →
      r.loss_g = some (h.generator_gan_loss h.fake_score h.real_score) ∧
      eff.backprop_g =
        some (h.generator_gan_loss h.fake_score h.real_score *
          s.gan_weight + (h.extra_generator_loss.getD []).sum)) := by
  by_cases hx : h.extra_generator_loss = some []
  · rw [GANInterface.training_step, backward_some_empty h s dp hd hx] at hok
    cases hok
  · by_cases hlt : s.iter < s.ncritic
    · rw [GANInterface.training_step,
        backward_d_branch h s dp hd hx hlt] at hok
      simp only [Except.ok.injEq, Prod.mk.injEq] at hok
      obtain ⟨hr, _, heff⟩ := hok
      subst hr
      subst heff
      exact ⟨fun _ => ⟨rfl, rfl⟩, fun hge => absurd hlt hge⟩
    · rw [GANInterface.training_step,
        backward_g_branch h s dp hd hx hlt] at hok
      simp only [Except.ok.injEq, Prod.mk.injEq] at hok
      obtain ⟨hr, _, heff⟩ := hok
      subst hr
      subst heff
      refine ⟨fun hlt' => absurd hlt' hlt, fun _ => ⟨rfl, ?_⟩⟩
      cases hex : h.extra_generator_loss with
      | none => simp [hex]
      | some ls => simp [hex]

/-- Result record backward produces on the C9 witness input. -/
def resultC9 : BwdResult :=
  { loss_g := none, loss_d := some 1, loss := some 1, extra_losses := [1] }

/-- Post-step state on the C9 witness input. -/
def stateC9' : GANState :=
  { discrim := some [5], opt_d := some (), ncritic := 1, gan_weight := 1,
    iter := 1 }

/-- Step effects on the C9 witness input. -/
def effC9 : StepEffects :=
  { stepped_g := false, stepped_d := true, backprop_g := none,
    backprop_d := some 1 }

/-- Witness for C9 on a concrete discriminator-update step. -/
theorem claim_C9_raw_loss_reporting_witness :
    resultC9.loss_d =
      some (hooks0.discriminator_gan_loss hooks0.fake_score
        hooks0.real_score) ∧
    effC9.backprop_d =
      some (hooks0.discriminator_gan_loss hooks0.fake_score
        hooks0.real_score * state0.gan_weight) :=
  (claim_C9_raw_loss_reporting hooks0 state0 [5] resultC9 stateC9' effC9
    rfl
    (by rw [GANInterface.training_step,
          backward_d_branch hooks0 state0 [5] rfl (by decide) (by decide)]
        norm_num [hooks0, state0, resultC9, stateC9', effC9])).1 (by decide)

/-- C7: under the Wasserstein strategy, whose discriminator update is
the base update followed by the parameter clamp, every discriminator
parameter lies between -c and c after any discriminator update; and the
Wasserstein constructor rejects a non-positive clip parameter as a
fatal configuration error. -/
theorem claim_C7_wasserstein_clip (c : ℚ) :
    (0 < c →
      ∀ (base : List ℚ → List ℚ) (h : Hooks) (s : GANState) (dp : List ℚ)
        (r : BwdResult) (s' : GANState) (eff : StepEffects),
        h.opt_step_d = WGANInterface.opt_step_d c base →
        s.discrim = some dp → s.iter < s.ncritic →
        GANInterface.training_step h s = Except.ok (r, s', eff) →
        ∀ p ∈ s'.discrim.getD [], -c ≤ p ∧ p ≤ c) ∧
    (c ≤ 0 → ∀ d nc gw,
      WGANInterface.init d nc gw c = Except.error clipMsg) := by
  constructor
  · intro hc base h s dp r s' eff hstep hd hlt hok
    by_cases hx : h.extra_generator_loss = some []
    · rw [GANInterface.training_step,
        backward_some_empty h s dp hd hx] at hok
      cases hok
    · rw [GANInterface.training_step,
        backward_d_branch h s dp hd hx hlt] at hok
      simp only [Except.ok.injEq, Prod.mk.injEq] at hok
      obtain ⟨_, hs', _⟩ := hok
      subst hs'
      intro p hp
      change p ∈ h.opt_step_d dp at hp
      rw [hstep] at hp
      simp only [WGANInterface.opt_step_d, List.mem_map] at hp
      obtain ⟨q, _, hpq⟩ := hp
      subst hpq
      refine ⟨?_, min_le_right _ _⟩
      exact le_min (le_max_right _ _) (by linarith)
  · intro hc d nc gw
    simp [WGANInterface.init, not_lt.mpr hc]

/-- Collaborator data for the C7 witness: no extra loss, the Wasserstein
discriminator update with c = 1 on top of an identity base step. -/
def hooksWGAN : Hooks :=
  { extra_generator_loss := none,
    fake_score := 0,
    real_score := 0,
    discriminator_gan_loss := fun f r => -(r - f),
    generator_gan_loss := fun f _ => -f,
    opt_step_d := WGANInterface.opt_step_d 1 id }

/-- Controller state for the C7 witness: discriminator parameters 5 and
-3, both outside the clip interval. -/
def stateWGAN : GANState :=
  { discrim := some [5, -3], opt_d := some (), ncritic := 1,
    gan_weight := 1, iter := 0 }

/-- Result record backward produces on the C7 witness input. -/
def resultWGAN : BwdResult :=
  { loss_g := none, loss_d := some 0, loss := none, extra_losses := [] }

/-- Post-step state on the C7 witness input: parameters clamped. -/
def stateWGAN' : GANState :=
  { discrim := some [1, -1], opt_d := some (), ncritic := 1,
    gan_weight := 1, iter := 1 }

/-- Step effects on the C7 witness input. -/
def effWGAN : StepEffects :=
  { stepped_g := false, stepped_d := true, backprop_g := none,
    backprop_d := some 0 }

/-- Witness for C7 on a concrete Wasserstein discriminator update. -/
theorem claim_C7_wasserstein_clip_witness :
    stateWGAN'.discrim.getD [] = [1, -1] ∧
    (∀ p ∈ stateWGAN'.discrim.getD [], -(1 : ℚ) ≤ p ∧ p ≤ 1) :=
  ⟨by decide,
   (claim_C7_wasserstein_clip 1).1 (by norm_num) id hooksWGAN stateWGAN
     [5, -3] resultWGAN stateWGAN' effWGAN rfl rfl (by decide)
     (by rw [GANInterface.training_step,
           backward_d_branch hooksWGAN stateWGAN [5, -3] rfl (by decide)
             (by decide)]
         norm_num [hooksWGAN, stateWGAN, resultWGAN, stateWGAN', effWGAN,
           WGANInterface.opt_step_d, clamp_, min_def, max_def])⟩

/-- C2: in a discriminator-update step, the fake prediction carries no
gradient dependencies at all (in particular none to the generator), the
real prediction tracks the discriminator's own parameters, and the
backpropagated discriminator objective depends on the discriminator's
parameters while depending on none of the generator's. -/
theorem claim_C2_detached_fake (dparams gparams : Finset ℕ) (f : ℚ → ℚ)
    (op : ℚ → ℚ → ℚ) (gw : ℚ) (fake_in real_in : GTensor)
    (hdisj : dparams ∩ gparams = ∅)
    (hreal : real_in.deps ∩ gparams = ∅) :
    (GANInterface.eval_d dparams f fake_in false).deps = ∅ ∧
    dparams ⊆ (GANInterface.eval_d dparams f real_in true).deps ∧
    dparams ⊆
      (discriminatorStepLoss dparams f op gw fake_in real_in).deps ∧
    ∀ p ∈ gparams,
      p ∉ (discriminatorStepLoss dparams f op gw fake_in real_in).deps := by
  refine ⟨rfl, ?_, ?_, ?_⟩
  · show dparams ⊆ dparams ∪ real_in.deps
    exact Finset.subset_union_left
  · show dparams ⊆ ∅ ∪ (dparams ∪ real_in.deps)
    rw [Finset.empty_union]
    exact Finset.subset_union_left
  · intro p hp
    show p ∉ ∅ ∪ (dparams ∪ real_in.deps)
    rw [Finset.empty_union]
    simp only [Finset.mem_union, not_or]
    constructor
    · intro hpd
      have hmem : p ∈ dparams ∩ gparams := Finset.mem_inter.mpr ⟨hpd, hp⟩
      rw [hdisj] at hmem
      exact absurd hmem (Finset.not_mem_empty p)
    · intro hpr
      have hmem : p ∈ real_in.deps ∩ gparams :=
        Finset.mem_inter.mpr ⟨hpr, hp⟩
      rw [hreal] at hmem
      exact absurd hmem (Finset.not_mem_empty p)

/-- Witness for C2 with discriminator parameter 0, generator parameter
1, a generated fake input depending on the generator, and a data-only
real input. -/
theorem claim_C2_detached_fake_witness :
    (GANInterface.eval_d ({0} : Finset ℕ) (fun x => x)
      (GTensor.mk 1 ({1} : Finset ℕ)) false).deps = ∅ ∧
    ({0} : Finset ℕ) ⊆ (GANInterface.eval_d ({0} : Finset ℕ) (fun x => x)
      (GTensor.mk 2 (∅ : Finset ℕ)) true).deps ∧
    ({0} : Finset ℕ) ⊆ (discriminatorStepLoss {0} (fun x => x)
      (fun a b => a - b) 1 (GTensor.mk 1 {1}) (GTensor.mk 2 ∅)).deps ∧
    (∀ p ∈ ({1} : Finset ℕ),
      p ∉ (discriminatorStepLoss {0} (fun x => x) (fun a b => a - b) 1
        (GTensor.mk 1 {1}) (GTensor.mk 2 ∅)).deps) :=
  claim_C2_detached_fake {0} {1} (fun x => x) (fun a b => a - b) 1
    (GTensor.mk 1 {1}) (GTensor.mk 2 ∅) (by decide) (by decide)

/-- Last entry of a list extended by a single element. -/
theorem getLast_append_single (l : List ℕ) (a : ℕ) :
    (l ++ [a]).getLast? = some a := by
  rw [List.getLast?_append_cons]
  rfl

/-- UNet parameters refuting claim C8: base width 64, growth factor 2,
cap 512, one convolution per level, two levels. -/
def unetCex : UNetParams :=
  { n_in := 3, n_out := 2, base_width := 64, max_width := 512,
    increase_factor := 2, num_convs := 1, num_levels := 2 }

/-- C8 counterexample: at the deepest level (level 1) of a two-level
UNet, the up-chain's final output channel count is the parent level's
width 64 (networks.py line 250 sets lvl_out to _width(lvl - 1)), not
that level's own width 128 as the claim states. -/
theorem claim_C8_counterexample :
    unetCex.width 1 = 128 ∧
    (unetCex.level 1).right_widths.getLast? = some 64 ∧
    (64 : ℕ) ≠ 128 := by decide

/-- C8 amended: each level's internal width is
min(base_width * growth_factor ^ level, max_width) with level 0
outermost; the outermost level's up-chain outputs the global n_out and
every other level's up-chain outputs the width of the level above it
(its parent's width, not its own); each up-chain's input channel count
is the level's width plus the n_child_out slot, which is zero for the
deepest level and the level's own width otherwise, and for non-deepest
levels equals the child level's output channel count.  Requires at
least two levels: with a single level the code passes the level's own
width as n_child_out even though no child exists. -/
theorem claim_C8_unet_channels (P : UNetParams) (hconvs : 1 ≤ P.num_convs)
    (h2 : 2 ≤ P.num_levels) (lvl : ℕ) (hlvl : lvl < P.num_levels) :
    (P.levelChans lvl).width =
      min (P.base_width * P.increase_factor ^ lvl) P.max_width ∧
    (P.level lvl).left_widths = List.replicate P.num_convs (P.width lvl) ∧
    (P.level lvl).right_widths.getLast? =
      some (if lvl = 0 then P.n_out else P.width (lvl - 1)) ∧
    (P.level lvl).right_in = P.width lvl +
      (if lvl = P.num_levels - 1 then 0 else P.width lvl) ∧
    (lvl + 1 < P.num_levels →
      (P.levelChans (lvl + 1)).lvl_out = P.width lvl) := by
  by_cases h0 : lvl = 0
  · subst h0
    have hne : (0 : ℕ) ≠ P.num_levels - 1 := by omega
    refine ⟨?_, ?_, ?_, ?_, ?_⟩
    · simp [UNetParams.levelChans, UNetParams.width]
    · simp [UNetParams.level, UNetParams.levelChans, mkUNetLevel]
    · simp [UNetParams.level, UNetParams.levelChans, mkUNetLevel,
        getLast_append_single]
    · simp [UNetParams.level, UNetParams.levelChans, mkUNetLevel, hne]
    · intro _
      simp [UNetParams.levelChans]
  · refine ⟨?_, ?_, ?_, ?_, ?_⟩
    · simp [UNetParams.levelChans, UNetParams.width, h0]
    · simp [UNetParams.level, UNetParams.levelChans, mkUNetLevel, h0]
    · simp [UNetParams.level, UNetParams.levelChans, mkUNetLevel, h0,
        getLast_append_single]
    · simp [UNetParams.level, UNetParams.levelChans, mkUNetLevel, h0]
    · intro _
      simp [UNetParams.levelChans]

/-- Witness for the amended C8 at the deepest level of the concrete
two-level UNet. -/
theorem claim_C8_unet_channels_witness :
    (unetCex.levelChans 1).width =
      min (unetCex.base_width * unetCex.increase_factor ^ 1)
        unetCex.max_width ∧
    (unetCex.level 1).left_widths =
      List.replicate unetCex.num_convs (unetCex.width 1) ∧
    (unetCex.level 1).right_widths.getLast? =
      some (if 1 = 0 then unetCex.n_out else unetCex.width (1 - 1)) ∧
    (unetCex.level 1).right_in = unetCex.width 1 +
      (if 1 = unetCex.num_levels - 1 then 0 else unetCex.width 1) ∧
    (1 + 1 < unetCex.num_levels →
      (unetCex.levelChans (1 + 1)).lvl_out = unetCex.width 1) :=
  claim_C8_unet_channels unetCex (by decide) (by decide) 1 (by decide)

/-- C10: the activation factory accepts the alias lrelu, but parameter
initialization rejects it (the torch calculate_gain collaborator does
not know that name), so constructing an FCModule or a ConvModule with
activation lrelu always fails even for valid channel and kernel
arguments. -/
theorem claim_C10_lrelu_rejected :
    _get_activation "lrelu" = Except.ok ActivationKind.leaky_relu ∧
    (∀ n_in n_out : ℤ, 0 < n_in → 0 < n_out →
      FCModule.init n_in n_out (some "lrelu") none =
        Except.error ("Unsupported nonlinearity " ++ "lrelu")) ∧
    (∀ n_in n_out ksize : ℤ, 0 < n_in → 0 < n_out → 0 < ksize →
      ∀ pad : Bool,
      ConvModule.init n_in n_out ksize pad (some "lrelu") none =
        Except.error ("Unsupported nonlinearity " ++ "lrelu")) := by
  refine ⟨by simp [_get_activation], ?_, ?_⟩
  · intro n_in n_out h1 h2
    simp [FCModule.init, _get_activation, _init_fc_or_conv,
      calculate_gain, calculate_gain_supported, h1, h2]
  · intro n_in n_out ksize h1 h2 h3 pad
    simp [ConvModule.init, _get_activation, _init_fc_or_conv,
      calculate_gain, calculate_gain_supported, h1, h2, h3]

/-- Witness for C10 at concrete channel and kernel arguments. -/
theorem claim_C10_lrelu_rejected_witness :
    FCModule.init 1 1 (some "lrelu") none =
      Except.error ("Unsupported nonlinearity " ++ "lrelu") ∧
    ConvModule.init 1 1 3 true (some "lrelu") none =
      Except.error ("Unsupported nonlinearity " ++ "lrelu") :=
  ⟨claim_C10_lrelu_rejected.2.1 1 1 (by decide) (by decide),
   claim_C10_lrelu_rejected.2.2 1 1 3 (by decide) (by decide) (by decide)
     true⟩
